import Mathlib

/-!
Shallow embedding of `src/bot.py` (a Telegram coloring-sheet bot).

The bot has three handlers (`start`, `handle_prompt`, `handle_submission`),
an error handler, and a `main` entry point.  External effects — the random
draw, the image-generation call, the file download, and the image decode —
are modelled as explicit inputs to each handler; outbound messages are
collected as a list of events; the filesystem is a list of file names.
-/

namespace ColorSheet

/-- An outbound message produced by a handler: either a plain text reply
or a photo with a caption (python `reply_text` / `reply_photo`). -/
inductive Out where
  | text (s : String)
  | photo (payload : String) (caption : String)
  deriving DecidableEq, Repr

/-- The appreciation mapping transcribed from `handle_prompt`
(src/bot.py lines 71-79): `if rating == 10: ... elif rating >= 8: ...
elif rating >= 6: ... else: ...`. -/
def handlePromptAppreciation (rating : Nat) : String :=
  if rating = 10 then "Excellent work! You've nailed it!"
  else if rating ≥ 8 then "Great job! Really impressive!"
  else if rating ≥ 6 then "Good effort! Keep it up!"
  else "Nice try! Keep practicing!"

/-- The appreciation mapping transcribed from `handle_submission`
(src/bot.py lines 110-118); the python code is a byte-for-byte copy of the
block in `handle_prompt`. -/
def handleSubmissionAppreciation (rating : Nat) : String :=
  if rating = 10 then "Excellent work! You've nailed it!"
  else if rating ≥ 8 then "Great job! Really impressive!"
  else if rating ≥ 6 then "Good effort! Keep it up!"
  else "Nice try! Keep practicing!"

/-- Python `s.startswith(p)`: the characters of `p` are a prefix of the
characters of `s`. -/
def pyStartsWith (s p : String) : Bool :=
  p.data.isPrefixOf s.data

/-- The fixed prompt template of `handle_prompt`
(src/bot.py line 58): `f"Black and white line art of: {prompt}, suitable
for coloring book"`. -/
def dallePrompt (prompt : String) : String :=
  "Black and white line art of: " ++ prompt ++ ", suitable for coloring book"

/-- Input of one `handle_prompt` invocation: the message text, the outcome
of the `openai.images.generate` call (`.ok url` on success, `.error e`
when the call raises with error text `e`), and the value returned by
`random.randint(1, 10)`. -/
structure PromptInput where
  text : String
  genResult : Except String String
  rating : Nat

/-- Result of one `handle_prompt` invocation: the prompts sent to the
external generation endpoint and the outbound messages. -/
structure PromptResult where
  calls : List String
  msgs : List Out
  deriving DecidableEq, Repr

/-- `handle_prompt` (src/bot.py lines 48-86).  Messages starting with the
command prefix return at once; otherwise the templated prompt goes to the
generation endpoint; an exception from that call is caught and answered
with an apology carrying the error text; on success the photo is sent with
the rating/appreciation caption. -/
def handle_prompt (inp : PromptInput) : PromptResult :=
  if pyStartsWith inp.text "/" then ⟨[], []⟩
  else
    let p := dallePrompt inp.text
    match inp.genResult with
    | .error e => ⟨[p], [.text ("Sorry, something went wrong: " ++ e)]⟩
    | .ok url =>
        let rating := inp.rating
        let appreciation := handlePromptAppreciation rating
        ⟨[p], [.photo url (":art: Here's your coloring sheet!\nRating: " ++
          toString rating ++ "/10\n" ++ appreciation)]⟩

/-- A decoded image as PIL presents it: a color mode (`img.mode`, e.g.
"RGB", "P", "L", "RGBA") and pixel content. -/
structure PILImage where
  mode : String
  pixels : List Nat
  deriving DecidableEq, Repr

/-- `img.convert('RGB')`: the result carries mode "RGB" and the same
picture content. -/
def PILImage.convertRGB (img : PILImage) : PILImage :=
  { img with mode := "RGB" }

/-- A JPEG file as written by `img.save(path, 'JPEG')`: the mode of the
image it was encoded from, and its pixel content. -/
structure Jpeg where
  mode : String
  pixels : List Nat
  deriving DecidableEq, Repr

/-- PIL `save(..., 'JPEG')`: JPEG holds L, RGB and CMYK images; any other
mode makes `save` raise (`cannot write mode ... as JPEG`). -/
def jpegSave (img : PILImage) : Option Jpeg :=
  if img.mode = "RGB" ∨ img.mode = "L" ∨ img.mode = "CMYK" then
    some ⟨img.mode, img.pixels⟩
  else none

/-- Channel count reported when a written JPEG is decoded again:
3 for RGB, 1 for grayscale, 4 for CMYK. -/
def jpegChannels (j : Jpeg) : Nat :=
  if j.mode = "RGB" then 3 else if j.mode = "L" then 1 else 4

/-- One size variant of an inbound photo, as the transport offers it;
the list is ordered smallest to largest and `photo[-1]` takes the last. -/
structure PhotoVariant where
  file_id : String
  deriving DecidableEq, Repr

/-- The transient file name of `handle_submission` (src/bot.py line 94):
`f"temp_{photo.file_id}.jpg"`. -/
def transientName (fid : String) : String := "temp_" ++ fid ++ ".jpg"

/-- The generic apology of `handle_submission`'s except block
(src/bot.py line 128). -/
def submissionApology : String :=
  "Sorry, something went wrong while processing your submission. Please try again later."

/-- Input of one `handle_submission` invocation: the inbound photo-variant
list, whether `download_to_drive` succeeds, the outcome of `Image.open` on
the downloaded file (`none` when decoding raises), and the value returned
by `random.randint(1, 10)`. -/
structure SubInput where
  photos : List PhotoVariant
  downloadOk : Bool
  decoded : Option PILImage
  rating : Nat

/-- Result of one `handle_submission` invocation: the filesystem after the
handler returns, the outbound messages, and the JPEG content written over
the transient file (when encoding was reached). -/
structure SubResult where
  fs : List String
  msgs : List Out
  written : Option Jpeg
  deriving DecidableEq, Repr

/-- `handle_submission` (src/bot.py lines 89-128).  The body indexes the
largest photo variant, downloads it to `temp_<file_id>.jpg`, decodes it,
converts to RGB when the mode differs, re-encodes as JPEG over the same
path, replies with the rating, and removes the file; any exception along
the way falls into the except block, which only sends the generic apology
— it does not remove the transient file. -/
def handle_submission (fs : List String) (inp : SubInput) : SubResult :=
  match inp.photos.getLast? with
  | none => ⟨fs, [.text submissionApology], none⟩
  | some photo =>
    let file_path := transientName photo.file_id
    if inp.downloadOk then
      let fs1 := file_path :: fs
      match inp.decoded with
      | none => ⟨fs1, [.text submissionApology], none⟩
      | some img =>
        let img2 := if img.mode ≠ "RGB" then img.convertRGB else img
        match jpegSave img2 with
        | none => ⟨fs1, [.text submissionApology], none⟩
        | some j =>
          let rating := inp.rating
          let appreciation := handleSubmissionAppreciation rating
          ⟨fs1.erase file_path,
           [.text (":white_check_mark: Submission received! Rating: " ++
             toString rating ++ "/10\n" ++ appreciation ++
             " Points will be awarded upon approval.")],
           some j⟩
    else ⟨fs, [.text submissionApology], none⟩

/-- An inbound update, as the transport delivers it to the dispatcher. -/
inductive Incoming where
  | textMsg (t : String)
  | photoMsg (photos : List PhotoVariant)

/-- Which registered handler an update is routed to. -/
inductive Handler where
  | start | submission | prompt | noHandler
  deriving DecidableEq, Repr

/-- `filters.COMMAND`: a text message whose first character is the command
prefix `/`. -/
def isCommand (t : String) : Bool := pyStartsWith t "/"

/-- `CommandHandler("start")`: matches the `/start` command, alone or with
arguments. -/
def isStartCommand (t : String) : Bool :=
  t = "/start" || pyStartsWith t "/start "

/-- The dispatch table built in `main` (src/bot.py lines 140-142), checked
in registration order: `CommandHandler("start")`, then
`MessageHandler(filters.PHOTO, handle_submission)`, then
`MessageHandler(filters.TEXT & ~filters.COMMAND, handle_prompt)`. -/
def dispatch : Incoming → Handler
  | .photoMsg _ => .submission
  | .textMsg t =>
      if isStartCommand t then .start
      else if ¬ isCommand t then .prompt
      else .noHandler

/-- How the process ends: terminated with an exit code, or still running
until externally terminated. -/
inductive ProcOutcome where
  | exited (code : Nat)
  | running
  deriving DecidableEq, Repr

/-- Failure points of the startup sequence: the module-level client
initialization (src/bot.py lines 31-36, the generation-provider API-key
setup guarded by `sys.exit(1)`), the transport-client construction
`Application.builder().token(...).build()` inside `main`'s try block, and
whether `run_webhook` ever raises. -/
structure StartupInput where
  initOk : Bool
  buildOk : Bool
  runRaises : Bool

/-- The whole process (module-level try block, then `main`,
src/bot.py lines 31-36 and 134-160).  A module-level initialization
failure calls `sys.exit(1)`.  Every exception inside `main` is caught,
logged, and `main` returns, so the interpreter exits normally with
code 0.  When nothing fails, `run_webhook` blocks forever. -/
def program (inp : StartupInput) : ProcOutcome :=
  if ¬ inp.initOk then .exited 1
  else if ¬ inp.buildOk then .exited 0
  else if inp.runRaises then .exited 0
  else .running

end ColorSheet

namespace ColorSheet

/-- C1: on every score in [1,10] the appreciation mapping of `handle_prompt`
equals the one of `handle_submission`, and both follow the four buckets in
the stated order (10 first, then ≥ 8, then ≥ 6, else the default). -/
theorem appreciation_buckets (s : Nat) (h1 : 1 ≤ s) (h10 : s ≤ 10) :
    handlePromptAppreciation s = handleSubmissionAppreciation s ∧
    (s = 10 → handlePromptAppreciation s = "Excellent work! You've nailed it!") ∧
    (s = 8 ∨ s = 9 → handlePromptAppreciation s = "Great job! Really impressive!") ∧
    (s = 6 ∨ s = 7 → handlePromptAppreciation s = "Good effort! Keep it up!") ∧
    (1 ≤ s ∧ s ≤ 5 → handlePromptAppreciation s = "Nice try! Keep practicing!") := by
  interval_cases s <;>
    simp [handlePromptAppreciation, handleSubmissionAppreciation]

/-- Witness for C1 at score 8. -/
theorem appreciation_buckets_witness :
    handlePromptAppreciation 8 = handleSubmissionAppreciation 8 ∧
    (8 = 10 → handlePromptAppreciation 8 = "Excellent work! You've nailed it!") ∧
    (8 = 8 ∨ 8 = 9 → handlePromptAppreciation 8 = "Great job! Really impressive!") ∧
    (8 = 6 ∨ 8 = 7 → handlePromptAppreciation 8 = "Good effort! Keep it up!") ∧
    (1 ≤ 8 ∧ 8 ≤ 5 → handlePromptAppreciation 8 = "Nice try! Keep practicing!") :=
  appreciation_buckets 8 (by decide) (by decide)

/-- C2 (code defect): a submission whose image decode raises (for instance a
corrupt download) leaves the transient file `temp_abc.jpg` on disk — the
except block sends the apology but never removes the file, contradicting
the required cleanup on every exit path. -/
theorem submission_failure_leaves_transient_file :
    (handle_submission [] ⟨[⟨"abc"⟩], true, none, 7⟩).fs = ["temp_abc.jpg"] ∧
    (handle_submission [] ⟨[⟨"abc"⟩], true, none, 7⟩).msgs = [.text submissionApology] := by
  constructor <;> rfl

/-- C3 counterexample: when the transport-client construction in `main`
fails (and module-level initialization succeeded), the process exits with
code 0, not with the claimed non-zero exit code. -/
theorem transport_build_failure_not_fatal :
    program ⟨true, false, false⟩ = ProcOutcome.exited 0 ∧
    ProcOutcome.exited 0 ≠ ProcOutcome.exited 1 := by
  exact ⟨rfl, by decide⟩

/-- C3 amended: the process exits with code 1 exactly when the module-level
client initialization fails; a transport-client construction failure in
`main` is caught and the process exits normally with code 0; with no
startup failure the process runs until externally terminated. -/
theorem exit_code_policy (i b r : Bool) :
    (program ⟨i, b, r⟩ = ProcOutcome.exited 1 ↔ i = false) ∧
    (i = false → program ⟨i, b, r⟩ = ProcOutcome.exited 1) ∧
    (i = true → b = false → program ⟨i, b, r⟩ = ProcOutcome.exited 0) ∧
    (i = true → b = true → r = false → program ⟨i, b, r⟩ = ProcOutcome.running) := by
  cases i <;> cases b <;> cases r <;> simp [program]

/-- Witness for C3's amended theorem at a concrete startup input. -/
theorem exit_code_policy_witness :
    (program ⟨false, true, false⟩ = ProcOutcome.exited 1 ↔ false = false) ∧
    (false = false → program ⟨false, true, false⟩ = ProcOutcome.exited 1) ∧
    (false = true → true = false → program ⟨false, true, false⟩ = ProcOutcome.exited 0) ∧
    (false = true → true = true → false = false →
      program ⟨false, true, false⟩ = ProcOutcome.running) :=
  exit_code_policy false true false

/-- C4: on a non-command text, when the generation call raises with error
text `e`, `handle_prompt` returns normally having sent exactly one outbound
message — a text apology carrying the error text — and no photo. -/
theorem prompt_error_single_apology (t e : String) (r : Nat)
    (h : pyStartsWith t "/" = false) :
    handle_prompt ⟨t, .error e, r⟩ =
      ⟨[dallePrompt t], [.text ("Sorry, something went wrong: " ++ e)]⟩ := by
  simp [handle_prompt, h]

/-- Witness for C4 at a concrete prompt and error. -/
theorem prompt_error_single_apology_witness :
    handle_prompt ⟨"a cat", .error "boom", 5⟩ =
      ⟨[dallePrompt "a cat"], [.text ("Sorry, something went wrong: " ++ "boom")]⟩ :=
  prompt_error_single_apology "a cat" "boom" 5 (by decide)

/-- C5: on a non-command text with a provider response carrying one image
URL, `handle_prompt` sends exactly one outbound message, a photo whose
payload is that URL, whose caption is the fixed text around the numeric
score and the appreciation string of that score — so the caption contains
both. -/
theorem prompt_success_single_photo (t url : String) (r : Nat)
    (h : pyStartsWith t "/" = false) :
    handle_prompt ⟨t, .ok url, r⟩ =
      ⟨[dallePrompt t],
       [.photo url (":art: Here's your coloring sheet!\nRating: " ++
         toString r ++ "/10\n" ++ handlePromptAppreciation r)]⟩ ∧
    ∃ pre mid,
      (":art: Here's your coloring sheet!\nRating: " ++ toString r ++ "/10\n" ++
          handlePromptAppreciation r) =
        pre ++ toString r ++ mid ++ handlePromptAppreciation r := by
  refine ⟨by simp [handle_prompt, h], ":art: Here's your coloring sheet!\nRating: ", "/10\n", rfl⟩

/-- Witness for C5 at a concrete prompt, URL and score. -/
theorem prompt_success_single_photo_witness :
    handle_prompt ⟨"a cat", .ok "http://img", 7⟩ =
      ⟨[dallePrompt "a cat"],
       [.photo "http://img" (":art: Here's your coloring sheet!\nRating: " ++
         toString 7 ++ "/10\n" ++ handlePromptAppreciation 7)]⟩ ∧
    ∃ pre mid,
      (":art: Here's your coloring sheet!\nRating: " ++ toString 7 ++ "/10\n" ++
          handlePromptAppreciation 7) =
        pre ++ toString 7 ++ mid ++ handlePromptAppreciation 7 :=
  prompt_success_single_photo "a cat" "http://img" 7 (by decide)

/-- C6: a text message starting with `/` is never routed to `handle_prompt`
by the dispatch table, and even called directly on such a text the handler
performs no generation call and sends nothing. -/
theorem command_prefix_never_relayed (t : String) (g : Except String String) (r : Nat)
    (h : pyStartsWith t "/" = true) :
    dispatch (.textMsg t) ≠ Handler.prompt ∧
    handle_prompt ⟨t, g, r⟩ = ⟨[], []⟩ := by
  constructor
  · by_cases hs : isStartCommand t = true <;>
      simp [dispatch, isCommand, h, hs]
  · simp [handle_prompt, h]

/-- Witness for C6 at the `/start` command text. -/
theorem command_prefix_never_relayed_witness :
    dispatch (.textMsg "/start") ≠ Handler.prompt ∧
    handle_prompt ⟨"/start", .ok "u", 1⟩ = ⟨[], []⟩ :=
  command_prefix_never_relayed "/start" (.ok "u") 1 (by decide)

/-- C7 counterexample: for the text "cat" the prompt actually forwarded is
"Black and white line art of: cat, suitable for coloring book", which is
not the claimed "black-and-white line art of: cat, suitable for coloring
book" (capitalization and hyphenation differ). -/
theorem template_capitalization_counterexample :
    (handle_prompt ⟨"cat", .ok "http://img", 5⟩).calls =
      ["Black and white line art of: cat, suitable for coloring book"] ∧
    ("Black and white line art of: cat, suitable for coloring book" ≠
      "black-and-white line art of: cat, suitable for coloring book") := by
  exact ⟨rfl, by decide⟩

/-- C7 amended: for every non-command text `t`, the forwarded prompt is
exactly "Black and white line art of: " ++ t ++ ", suitable for coloring
book". -/
theorem prompt_template (t : String) (g : Except String String) (r : Nat)
    (h : pyStartsWith t "/" = false) :
    (handle_prompt ⟨t, g, r⟩).calls =
      ["Black and white line art of: " ++ t ++ ", suitable for coloring book"] := by
  cases g <;> simp [handle_prompt, dallePrompt, h]

/-- Witness for C7's amended theorem at a concrete text. -/
theorem prompt_template_witness :
    (handle_prompt ⟨"cat", .ok "http://img", 5⟩).calls =
      ["Black and white line art of: " ++ "cat" ++ ", suitable for coloring book"] :=
  prompt_template "cat" (.ok "http://img") 5 (by decide)

/-- C8: for every successfully decoded submission, the JPEG written back
has three channels; a non-RGB image is converted to RGB before re-encoding
while an RGB image is re-encoded as it is. -/
theorem submission_normalizes_to_rgb (fs : List String) (photos : List PhotoVariant)
    (img : PILImage) (r : Nat) (hp : photos ≠ []) :
    ∃ j, (handle_submission fs ⟨photos, true, some img, r⟩).written = some j ∧
      jpegChannels j = 3 ∧
      (img.mode ≠ "RGB" → jpegSave img.convertRGB = some j) ∧
      (img.mode = "RGB" → jpegSave img = some j) := by
  have hgl := List.getLast?_eq_getLast_of_ne_nil hp
  refine ⟨⟨"RGB", img.pixels⟩, ?_, ?_, ?_, ?_⟩
  · by_cases hm : img.mode = "RGB" <;>
      simp [handle_submission, hgl, jpegSave, hm, PILImage.convertRGB]
  · simp [jpegChannels]
  · intro h
    simp [jpegSave, PILImage.convertRGB]
  · intro h
    simp [jpegSave, h]

/-- Witness for C8 on a palette-mode image. -/
theorem submission_normalizes_to_rgb_witness :
    ∃ j, (handle_submission [] ⟨[⟨"x"⟩], true, some ⟨"P", [1, 2]⟩, 5⟩).written = some j ∧
      jpegChannels j = 3 ∧
      ((⟨"P", [1, 2]⟩ : PILImage).mode ≠ "RGB" →
        jpegSave (⟨"P", [1, 2]⟩ : PILImage).convertRGB = some j) ∧
      ((⟨"P", [1, 2]⟩ : PILImage).mode = "RGB" →
        jpegSave (⟨"P", [1, 2]⟩ : PILImage) = some j) :=
  submission_normalizes_to_rgb [] [⟨"x"⟩] ⟨"P", [1, 2]⟩ 5 (by decide)

/-- Helper: on a successful run (non-empty photo list, download and decode
succeed) the outbound messages of `handle_submission` are exactly the
confirmation text determined by the rating alone. -/
theorem submission_success_msgs (fs : List String) (i : SubInput)
    (hp : i.photos ≠ []) (hd : i.downloadOk = true)
    (img : PILImage) (hi : i.decoded = some img) :
    (handle_submission fs i).msgs =
      [.text (":white_check_mark: Submission received! Rating: " ++
        toString i.rating ++ "/10\n" ++ handleSubmissionAppreciation i.rating ++
        " Points will be awarded upon approval.")] := by
  have hgl := List.getLast?_eq_getLast_of_ne_nil hp
  by_cases hm : img.mode = "RGB" <;>
    simp [handle_submission, hgl, hd, hi, jpegSave, hm, PILImage.convertRGB]

/-- C9: the submission reply is independent of the submitted image bytes
and of the rest of the upload — two uploads that both decode successfully
and receive the same random draw get the same reply text. -/
theorem submission_reply_noninterference (fs1 fs2 : List String) (i1 i2 : SubInput)
    (h1p : i1.photos ≠ []) (h2p : i2.photos ≠ [])
    (h1d : i1.downloadOk = true) (h2d : i2.downloadOk = true)
    (img1 img2 : PILImage) (h1i : i1.decoded = some img1) (h2i : i2.decoded = some img2)
    (hr : i1.rating = i2.rating) :
    (handle_submission fs1 i1).msgs = (handle_submission fs2 i2).msgs := by
  rw [submission_success_msgs fs1 i1 h1p h1d img1 h1i,
    submission_success_msgs fs2 i2 h2p h2d img2 h2i, hr]

/-- Witness for C9: an RGB photo and a differently sized palette photo with
the same draw get identical replies. -/
theorem submission_reply_noninterference_witness :
    (handle_submission [] ⟨[⟨"a"⟩], true, some ⟨"RGB", [0]⟩, 4⟩).msgs =
    (handle_submission ["x"] ⟨[⟨"b"⟩], true, some ⟨"P", [9, 9, 9]⟩, 4⟩).msgs :=
  submission_reply_noninterference [] ["x"] _ _ (by decide) (by decide) rfl rfl
    ⟨"RGB", [0]⟩ ⟨"P", [9, 9, 9]⟩ rfl rfl rfl

/-- C10: an inbound photo update with an empty photo-variant list does not
crash the handler: the failing index access lands in the except block,
which sends the generic apology as the only outbound message and touches
no file. -/
theorem empty_photo_list_generic_apology (fs : List String) (dl : Bool)
    (dec : Option PILImage) (r : Nat) :
    handle_submission fs ⟨[], dl, dec, r⟩ = ⟨fs, [.text submissionApology], none⟩ :=
  rfl

end ColorSheet
